import Mathlib

/-!
# Verification of the design-rendering service

Shallow embedding of `apps/design_tool/services/renderer.py` (class
`DesignRenderer`): the Konva scene JSON is modelled as a Python-value tree
(`PyVal`), Python's partial primitive operations (`+`, `>`, `int()`, `len`,
indexing, attribute access) are modelled as `Except`-valued functions, and the
PIL drawing calls performed by the renderer are recorded as a list of draw
operations (`DrawOp`).  External collaborators that perform I/O (PIL's
`ImageColor.getcolor`, `ImageFont.truetype`, `draw.textbbox`, the three image
loaders, `json.loads`) are parameters of an `Env` record; each is given
exactly the `Option`/`Except` contract the Python call sites observe.
Python floats are modelled as exact rationals (`Frac`, an unnormalized
numerator/denominator pair whose value is read off by `Frac.val`); none of
the statements proved below depends on binary floating-point rounding.

Pillow's own argument checking is modelled where the renderer can hit it:
`draw.rectangle`/`draw.ellipse` raise `ValueError` for incorrectly ordered
coordinates (Pillow ≥ 9.2; the code requires ≥ 9.1 for
`Image.Resampling`), and `resize` rejects negative sizes.  PIL's validation
of color strings passed through verbatim is NOT modelled: a recorded draw
call carries the color value exactly as the renderer passed it.
-/

set_option autoImplicit false

namespace Renderer

/-- An exact rational, kept unnormalized (the arithmetic the renderer
performs never needs normalization, and avoiding it keeps every definition
kernel-computable).  The denominator is positive in every value the model
constructs; `val` is the represented rational. -/
structure Frac where
  n : ℤ
  d : ℤ
  deriving DecidableEq

/-- The rational value represented by a `Frac`. -/
def Frac.val (a : Frac) : ℚ := (a.n : ℚ) / (a.d : ℚ)

/-- Embed an integer. -/
def Frac.ofInt (n : ℤ) : Frac := ⟨n, 1⟩

/-- Addition: `a/b + c/d = (ad + cb)/(bd)`. -/
def Frac.add (a b : Frac) : Frac := ⟨a.n * b.d + b.n * a.d, a.d * b.d⟩

/-- Subtraction. -/
def Frac.sub (a b : Frac) : Frac := ⟨a.n * b.d - b.n * a.d, a.d * b.d⟩

/-- Multiplication. -/
def Frac.mul (a b : Frac) : Frac := ⟨a.n * b.n, a.d * b.d⟩

/-- Division, keeping the denominator positive. -/
def Frac.div (a b : Frac) : Frac :=
  let n := a.n * b.d
  let d := a.d * b.n
  if d < 0 then ⟨-n, -d⟩ else ⟨n, d⟩

/-- Truncation toward zero, as Python's `int()` on a float (`Int.tdiv` is
T-division; the denominator is positive in every constructed value). -/
def Frac.trunc (a : Frac) : ℤ := a.n.tdiv a.d

/-- Do two fractions represent the same rational (cross multiplication)? -/
def Frac.sameVal (a b : Frac) : Bool := a.n * b.d == b.n * a.d

/-- Value comparison `a < b` by cross multiplication (valid because every
constructed value has a positive denominator). -/
def Frac.lt (a b : Frac) : Bool := a.n * b.d < b.n * a.d

instance (n : ℕ) : OfNat Frac n := ⟨⟨n, 1⟩⟩

/-- A Python/JSON value as it appears in the Konva design document. -/
inductive PyVal where
  | none
  | bool (b : Bool)
  | num (q : Frac)
  | str (s : String)
  | list (xs : List PyVal)
  | dict (fs : List (String × PyVal))

/-- Exceptions thrown by the Python primitives used in the renderer. -/
inductive PyErr where
  | typeError
  | valueError
  | attributeError
  | indexError
  | keyError
  | nameError
  | oserror
  | fuel
  deriving DecidableEq

/-- Python truthiness (`if v:`). -/
def pyTruthy : PyVal → Bool
  | .none => false
  | .bool b => b
  | .num q => q.n != 0
  | .str s => s ≠ ""
  | .list xs => !xs.isEmpty
  | .dict fs => !fs.isEmpty

/-- `s.startswith(pre)`, computed on character lists. -/
def strStartsWith (s pre : String) : Bool := pre.toList.isPrefixOf s.toList

/-- Digits of a decimal integer literal. -/
def digitsToNat : List Char → Option ℕ
  | [] => Option.none
  | cs => cs.foldlM (fun acc c => if c.isDigit then some (acc * 10 + (c.toNat - 48)) else Option.none) 0

/-- Python `int(string)`: optional surrounding whitespace, an optional sign,
then decimal digits; anything else raises `ValueError`. -/
def pyStrToInt (s : String) : Option ℤ :=
  let cs := s.toList.dropWhile (· = ' ')
  let cs := (cs.reverse.dropWhile (· = ' ')).reverse
  match cs with
  | '-' :: ds => (digitsToNat ds).map (fun n => -(n : ℤ))
  | '+' :: ds => (digitsToNat ds).map (fun n => (n : ℤ))
  | ds => (digitsToNat ds).map (fun n => (n : ℤ))

/-- Python `v == "lit"`: equal only when `v` is that very string (comparison
between values of different types is `False`, never a raise). -/
def pyEqStr (v : PyVal) (lit : String) : Bool :=
  match v with
  | .str s => s = lit
  | _ => false

/-- First-match lookup in a field list (keys of a JSON object are unique). -/
def lookupF : List (String × PyVal) → String → Option PyVal
  | [], _ => Option.none
  | (k, v) :: fs, key => if k = key then some v else lookupF fs key

/-- `d.get(key, default)` on a dict value. -/
def lookupD (fs : List (String × PyVal)) (key : String) (d : PyVal) : PyVal :=
  (lookupF fs key).getD d

/-- `v.get(key, default)`: raises `AttributeError` when `v` is not a dict. -/
def pyGetD (v : PyVal) (key : String) (d : PyVal) : Except PyErr PyVal :=
  match v with
  | .dict fs => .ok (lookupD fs key d)
  | _ => .error .attributeError

/-- Python `a + b` for the value shapes reachable in the renderer
(number-likes add; strings concatenate; mixing raises `TypeError`). -/
def pyAdd : PyVal → PyVal → Except PyErr PyVal
  | .num a, .num b => .ok (.num (a.add b))
  | .num a, .bool b => .ok (.num (a.add (if b then 1 else 0)))
  | .bool a, .num b => .ok (.num (Frac.add (if a then 1 else 0) b))
  | .bool a, .bool b => .ok (.num (Frac.add (if a then 1 else 0) (if b then 1 else 0)))
  | .str a, .str b => .ok (.str (a ++ b))
  | _, _ => .error .typeError

/-- Python `a - b` (numbers and bools only). -/
def pySub : PyVal → PyVal → Except PyErr PyVal
  | .num a, .num b => .ok (.num (a.sub b))
  | .num a, .bool b => .ok (.num (a.sub (if b then 1 else 0)))
  | .bool a, .num b => .ok (.num (Frac.sub (if a then 1 else 0) b))
  | .bool a, .bool b => .ok (.num (Frac.sub (if a then 1 else 0) (if b then 1 else 0)))
  | _, _ => .error .typeError

/-- Python `int(v)`: floats truncate toward zero, bools coerce, numeric
strings parse (`ValueError` otherwise), other shapes raise `TypeError`. -/
def pyInt : PyVal → Except PyErr ℤ
  | .num q => .ok q.trunc
  | .bool b => .ok (if b then 1 else 0)
  | .str s =>
    match pyStrToInt s with
    | some n => .ok n
    | Option.none => .error .valueError
  | _ => .error .typeError

/-- Python `v > 0` (as evaluated for `stroke_width > 0`). -/
def pyGtZero : PyVal → Except PyErr Bool
  | .num q => .ok (0 < q.n)
  | .bool b => .ok b
  | _ => .error .typeError

/-- A PIL drawing coordinate: the value must be number-like. -/
def pyNumQ : PyVal → Except PyErr Frac
  | .num q => .ok q
  | .bool b => .ok (if b then 1 else 0)
  | _ => .error .typeError

/-- Python `len(v)` (`TypeError` for unsized values). -/
def pyLen : PyVal → Except PyErr ℕ
  | .list xs => .ok xs.length
  | .str s => .ok s.length
  | .dict fs => .ok fs.length
  | _ => .error .typeError

/-- Python `v[i]` for a natural index. -/
def pyIndex : PyVal → ℕ → Except PyErr PyVal
  | .list xs, i =>
    match xs.get? i with
    | some x => .ok x
    | Option.none => .error .indexError
  | .str s, i =>
    match s.toList.get? i with
    | some c => .ok (.str c.toString)
    | Option.none => .error .indexError
  | .dict _, _ => .error .keyError
  | _, _ => .error .typeError

/-- `str(v)`, used only to build font-cache keys.  The exact Python `repr`
of containers is irrelevant to every statement below. -/
def pyStrRepr : PyVal → String
  | .str s => s
  | .num q => toString q.n ++ "/" ++ toString q.d
  | .bool b => if b then "True" else "False"
  | .none => "None"
  | .list _ => "[list]"
  | .dict _ => "[dict]"

/-- Result of `_parse_color`: the source returns either the input string
unchanged or PIL's RGB tuple. -/
inductive PColor where
  | raw (s : String)
  | rgb (r g b : ℕ)
  deriving DecidableEq

/-- A decoded pixel image returned by one of the three asset loaders. -/
structure PImg where
  tag : ℕ
  deriving DecidableEq

/-- A font handle: either a truetype font loaded from a file at a pixel size,
or PIL's built-in default bitmap font (`ImageFont.load_default()`). -/
inductive Font where
  | truetypeF (file : String) (size : ℤ)
  | builtin
  deriving DecidableEq

/-- The per-renderer font cache (`self.font_cache`), keyed by
`f"{font_family}_{font_size}"`. -/
def FontCache := List (String × Font)

/-- Lookup in the font cache. -/
def cacheFind : FontCache → String → Option Font
  | [], _ => Option.none
  | (k, f) :: c, key => if k = key then some f else cacheFind c key

/-- External collaborators of the renderer, with the contracts its call
sites observe.  `Option.none` models the call raising (every raising call is
wrapped in a handler at its use site in the source). -/
structure Env where
  /-- `json.loads` on a string design document. -/
  jsonParse : String → Except PyErr PyVal
  /-- `ImageColor.getcolor(s, 'RGB')`; `Option.none` models an exception. -/
  getcolor : String → Option (ℕ × ℕ × ℕ)
  /-- `_load_base64_image`: returns `None` on any failure. -/
  loadBase64 : String → Option PImg
  /-- `_load_remote_image`: returns `None` on any failure. -/
  loadRemote : String → Option PImg
  /-- `_load_local_image`: returns `None` on any failure. -/
  loadLocal : String → Option PImg
  /-- Whether `ImageFont.truetype(file, size)` succeeds. -/
  truetypeOk : String → ℤ → Bool
  /-- `self.default_font_path` (resolved once in `__init__`). -/
  defaultFontPath : String
  /-- `draw.textbbox((0, 0), text, font=font)`. -/
  textbbox : Font → String → ℤ × ℤ × ℤ × ℤ

/-- The named colors accepted verbatim by `_parse_color`. -/
def namedColors : List String :=
  ["red", "blue", "green", "black", "white", "yellow",
   "orange", "purple", "pink", "gray", "brown"]

/-- `DesignRenderer._parse_color`, translated clause for clause: falsy input
gives black; strings starting with `#` or `rgb` and the named table are
returned unchanged; anything else is given to PIL's `getcolor`, whose
exception is caught and replaced by black.  A non-string truthy value makes
`color.startswith` raise `AttributeError`, which the handler also maps to
black. -/
def parseColor (env : Env) (color : PyVal) : PColor :=
  if !pyTruthy color then .raw "#000000"
  else
    match color with
    | .str s =>
      if strStartsWith s "#" then .raw s
      else if strStartsWith s "rgb" then .raw s
      else if s ∈ namedColors then .raw s
      else
        match env.getcolor s with
        | some (r, g, b) => .rgb r g b
        | Option.none => .raw "#000000"
    | _ => .raw "#000000"

/-- The static web-font alias table in `_get_font`. -/
def fontMapping : List (String × String) :=
  [("Arial", "arial.ttf"), ("Helvetica", "arial.ttf"),
   ("Times", "times.ttf"), ("Times New Roman", "times.ttf"),
   ("Courier", "cour.ttf"), ("Courier New", "cour.ttf"),
   ("Verdana", "verdana.ttf"), ("Georgia", "georgia.ttf"),
   ("Comic Sans MS", "comic.ttf"), ("Impact", "impact.ttf")]

/-- String-keyed first-match lookup. -/
def lookupStr : List (String × String) → String → Option String
  | [], _ => Option.none
  | (k, v) :: m, key => if k = key then some v else lookupStr m key

/-- `font_mapping.get(font_family, self.default_font_path)`: an unhashable
key (list/dict) raises `TypeError`; any other non-matching key yields the
default path. -/
def familyToFile (env : Env) (family : PyVal) : Except PyErr String :=
  match family with
  | .str s => .ok ((lookupStr fontMapping s).getD env.defaultFontPath)
  | .list _ => .error .typeError
  | .dict _ => .error .typeError
  | _ => .ok env.defaultFontPath

/-- `DesignRenderer._get_font`.  Cache hit returns the memoized font.
Otherwise: map the family to a font file; try `truetype` on it, falling back
to `truetype` on the default path when the first load raises `OSError`; any
exception escaping the outer `try` (unhashable family, or the default path
also failing to load) falls back to `ImageFont.load_default()`, which does no
file I/O and cannot fail.  The chosen font is memoized before returning. -/
def getFont (env : Env) (cache : FontCache) (family : PyVal) (size : ℤ) :
    Font × FontCache :=
  let key := pyStrRepr family ++ "_" ++ toString size
  match cacheFind cache key with
  | some f => (f, cache)
  | Option.none =>
    match familyToFile env family with
    | .error _ => (Font.builtin, (key, Font.builtin) :: cache)
    | .ok file =>
      if env.truetypeOk file size then
        (Font.truetypeF file size, (key, Font.truetypeF file size) :: cache)
      else if env.truetypeOk env.defaultFontPath size then
        (Font.truetypeF env.defaultFontPath size,
         (key, Font.truetypeF env.defaultFontPath size) :: cache)
      else
        (Font.builtin, (key, Font.builtin) :: cache)

/-- One recorded PIL drawing call.  Each constructor corresponds to one
`draw.*` / `base_img.paste` call site in the source. -/
inductive DrawOp where
  /-- `draw.rectangle([...], fill=c)` -/
  | rectFill (x0 y0 x1 y1 : Frac) (c : PColor)
  /-- `draw.rectangle([...], outline=c, width=w)` -/
  | rectOutline (x0 y0 x1 y1 : Frac) (c : PColor) (w : ℤ)
  /-- `draw.ellipse([...], fill=c)` -/
  | ellipseFill (x0 y0 x1 y1 : Frac) (c : PColor)
  /-- `draw.ellipse([...], outline=c, width=w)` -/
  | ellipseOutline (x0 y0 x1 y1 : Frac) (c : PColor) (w : ℤ)
  /-- `draw.line([(x1,y1),(x2,y2)], fill=c, width=w)` -/
  | lineSeg (x1 y1 x2 y2 : Frac) (c : PColor) (w : ℤ)
  /-- `draw.text((x,y), s, fill=c, font=f)` -/
  | text (x y : Frac) (s : String) (c : PColor) (f : Font)
  /-- `draw.text((x,y), s, fill=raw)` with no font (the two fallback
  call sites pass the raw attribute value / a literal string as fill). -/
  | textPlain (x y : Frac) (s : String) (fillRaw : PyVal)
  /-- `base_img.paste(img.resize((w,h)), (x,y))` -/
  | paste (img : PImg) (w h : ℤ) (x y : ℤ)

/-- Result of painting: draw calls already performed, the font cache, and the
exception (if one escaped the painted code). -/
structure RRes where
  ops : List DrawOp
  cache : FontCache
  err : Option PyErr

/-- `DesignRenderer._render_rect`.  `x`, `y`, `width`, `height` default to
0/0/100/100; the fill rectangle is drawn when `fill` is truthy, the outline
when `stroke` is truthy and `stroke_width > 0`.  Coordinate arithmetic
(`x + width`) and PIL's coordinate checks may raise — non-numeric
coordinates are a `TypeError`, an incorrectly ordered box (`x1 < x0` or
`y1 < y0`, e.g. from a negative width) a `ValueError` — and a raise after
the fill call keeps the fill op (the pixels were already painted). -/
def renderRect (env : Env) (attrs : PyVal) : List DrawOp × Option PyErr :=
  match attrs with
  | .dict fs =>
    let x := lookupD fs "x" (.num 0)
    let y := lookupD fs "y" (.num 0)
    let width := lookupD fs "width" (.num 100)
    let height := lookupD fs "height" (.num 100)
    let fill := lookupD fs "fill" .none
    let stroke := lookupD fs "stroke" .none
    let strokeWidth := lookupD fs "strokeWidth" (.num 1)
    let fillStep : List DrawOp × Option PyErr :=
      if pyTruthy fill then
        let c := parseColor env fill
        match pyAdd x width, pyAdd y height with
        | .ok ex, .ok ey =>
          match pyNumQ x, pyNumQ y, pyNumQ ex, pyNumQ ey with
          | .ok qx, .ok qy, .ok qex, .ok qey =>
            if Frac.lt qex qx || Frac.lt qey qy then ([], some .valueError)
            else ([.rectFill qx qy qex qey c], Option.none)
          | _, _, _, _ => ([], some .typeError)
        | _, _ => ([], some .typeError)
      else ([], Option.none)
    match fillStep with
    | (ops, some e) => (ops, some e)
    | (ops, Option.none) =>
      if pyTruthy stroke then
        match pyGtZero strokeWidth with
        | .error e => (ops, some e)
        | .ok false => (ops, Option.none)
        | .ok true =>
          let c := parseColor env stroke
          match pyAdd x width, pyAdd y height, pyInt strokeWidth with
          | .ok ex, .ok ey, .ok w =>
            match pyNumQ x, pyNumQ y, pyNumQ ex, pyNumQ ey with
            | .ok qx, .ok qy, .ok qex, .ok qey =>
              if Frac.lt qex qx || Frac.lt qey qy then (ops, some .valueError)
              else (ops ++ [.rectOutline qx qy qex qey c w], Option.none)
            | _, _, _, _ => (ops, some .typeError)
          | _, _, _ => (ops, some .typeError)
      else (ops, Option.none)
  | _ => ([], some .attributeError)

/-- Shared body of `_render_circle` / `_render_ellipse` once the bounding box
`[left, top, right, bottom]` has been computed: fill ellipse if `fill` is
truthy, then outline if `stroke` is truthy and `stroke_width > 0`.  As for
rectangles, PIL rejects an incorrectly ordered bounding box with
`ValueError`. -/
def ellipseSteps (env : Env) (l t r b fill stroke strokeWidth : PyVal) :
    List DrawOp × Option PyErr :=
  let fillStep : List DrawOp × Option PyErr :=
    if pyTruthy fill then
      let c := parseColor env fill
      match pyNumQ l, pyNumQ t, pyNumQ r, pyNumQ b with
      | .ok ql, .ok qt, .ok qr, .ok qb =>
        if Frac.lt qr ql || Frac.lt qb qt then ([], some .valueError)
        else ([.ellipseFill ql qt qr qb c], Option.none)
      | _, _, _, _ => ([], some .typeError)
    else ([], Option.none)
  match fillStep with
  | (ops, some e) => (ops, some e)
  | (ops, Option.none) =>
    if pyTruthy stroke then
      match pyGtZero strokeWidth with
      | .error e => (ops, some e)
      | .ok false => (ops, Option.none)
      | .ok true =>
        let c := parseColor env stroke
        match pyInt strokeWidth with
        | .error e => (ops, some e)
        | .ok w =>
          match pyNumQ l, pyNumQ t, pyNumQ r, pyNumQ b with
          | .ok ql, .ok qt, .ok qr, .ok qb =>
            if Frac.lt qr ql || Frac.lt qb qt then (ops, some .valueError)
            else (ops ++ [.ellipseOutline ql qt qr qb c w], Option.none)
          | _, _, _, _ => (ops, some .typeError)
    else (ops, Option.none)

/-- `DesignRenderer._render_circle`: the bounding box `x ± radius`,
`y ± radius` is computed before either branch (so a type error in it raises
even when no color is set), then fill/outline as for rectangles. -/
def renderCircle (env : Env) (attrs : PyVal) : List DrawOp × Option PyErr :=
  match attrs with
  | .dict fs =>
    let x := lookupD fs "x" (.num 0)
    let y := lookupD fs "y" (.num 0)
    let radius := lookupD fs "radius" (.num 50)
    match pySub x radius, pySub y radius, pyAdd x radius, pyAdd y radius with
    | .ok l, .ok t, .ok r, .ok b =>
      ellipseSteps env l t r b (lookupD fs "fill" .none)
        (lookupD fs "stroke" .none) (lookupD fs "strokeWidth" (.num 1))
    | _, _, _, _ => ([], some .typeError)
  | _ => ([], some .attributeError)

/-- `DesignRenderer._render_ellipse`: as `_render_circle` with independent
`radiusX` (default 50) and `radiusY` (default 30). -/
def renderEllipse (env : Env) (attrs : PyVal) : List DrawOp × Option PyErr :=
  match attrs with
  | .dict fs =>
    let x := lookupD fs "x" (.num 0)
    let y := lookupD fs "y" (.num 0)
    let rx := lookupD fs "radiusX" (.num 50)
    let ry := lookupD fs "radiusY" (.num 30)
    match pySub x rx, pySub y ry, pyAdd x rx, pyAdd y ry with
    | .ok l, .ok t, .ok r, .ok b =>
      ellipseSteps env l t r b (lookupD fs "fill" .none)
        (lookupD fs "stroke" .none) (lookupD fs "strokeWidth" (.num 1))
    | _, _, _, _ => ([], some .typeError)
  | _ => ([], some .attributeError)

/-- One iteration of `_render_line`'s segment loop: fetch
`points[i] .. points[i+3]`, convert, and draw. -/
def lineSegAt (points : PyVal) (c : PColor) (strokeWidth : PyVal) (i : ℕ) :
    Except PyErr DrawOp :=
  match pyIndex points i, pyIndex points (i + 1),
        pyIndex points (i + 2), pyIndex points (i + 3) with
  | .ok x1, .ok y1, .ok x2, .ok y2 =>
    match pyInt strokeWidth with
    | .error e => .error e
    | .ok w =>
      match pyNumQ x1, pyNumQ y1, pyNumQ x2, pyNumQ y2 with
      | .ok q1, .ok q2, .ok q3, .ok q4 => .ok (.lineSeg q1 q2 q3 q4 c w)
      | _, _, _, _ => .error .typeError
  | _, _, _, _ => .error .indexError

/-- Run the segment loop over the index list, keeping segments drawn before
a raise. -/
def lineLoop (points : PyVal) (c : PColor) (strokeWidth : PyVal) :
    List ℕ → List DrawOp × Option PyErr
  | [] => ([], Option.none)
  | i :: is =>
    match lineSegAt points c strokeWidth i with
    | .error e => ([], some e)
    | .ok op =>
      let (ops, err) := lineLoop points c strokeWidth is
      (op :: ops, err)

/-- `DesignRenderer._render_line`: fewer than 4 point entries draws nothing;
otherwise consecutive coordinate pairs are joined by segments, the loop index
running over `range(0, len(points) - 2, 2)` (for an odd point count the last
iteration raises `IndexError` at `points[i + 3]`). -/
def renderLine (env : Env) (attrs : PyVal) : List DrawOp × Option PyErr :=
  match attrs with
  | .dict fs =>
    let points := lookupD fs "points" (.list [])
    let stroke := lookupD fs "stroke" (.str "#000000")
    let strokeWidth := lookupD fs "strokeWidth" (.num 1)
    match pyLen points with
    | .error e => ([], some e)
    | .ok n =>
      if n < 4 then ([], Option.none)
      else
        let c := parseColor env stroke
        lineLoop points c strokeWidth ((List.range (n - 2)).filter (fun i => i % 2 = 0))
  | _ => ([], some .attributeError)

/-- `DesignRenderer._render_image`.  A falsy `src` draws nothing.  Otherwise
the loader is picked by prefix (`data:` → base64, `http` → remote, else
local); a decoded image is resized to the declared size and pasted.  When the
loader returns `None` nothing at all is drawn.  Any exception inside the
`try` (non-string `src`, bad `int()` conversions, negative resize sizes) is
caught and answered with the placeholder: a `#cccccc` outline rectangle of
the declared size plus an `"Image"` label — whose own drawing can raise
again and escape the node: its coordinate arithmetic (`TypeError` on
non-numeric attributes) or PIL's rectangle check (`ValueError` on an
incorrectly ordered box, e.g. from the very negative width that triggered
the handler).  A non-dict `attrs` raises at the first `.get` and the
handler's unbound locals raise `NameError`. -/
def renderImage (env : Env) (attrs : PyVal) : List DrawOp × Option PyErr :=
  match attrs with
  | .dict fs =>
    let x := lookupD fs "x" (.num 0)
    let y := lookupD fs "y" (.num 0)
    let width := lookupD fs "width" (.num 100)
    let height := lookupD fs "height" (.num 100)
    let src := lookupD fs "src" (.str "")
    if !pyTruthy src then ([], Option.none)
    else
      let placeholder : List DrawOp × Option PyErr :=
        match pyAdd x width, pyAdd y height with
        | .ok ex, .ok ey =>
          match pyNumQ x, pyNumQ y, pyNumQ ex, pyNumQ ey with
          | .ok qx, .ok qy, .ok qex, .ok qey =>
            if Frac.lt qex qx || Frac.lt qey qy then ([], some .valueError)
            else
              match pyAdd x (.num 5), pyAdd y (.num 5) with
              | .ok x5, .ok y5 =>
                match pyNumQ x5, pyNumQ y5 with
                | .ok qx5, .ok qy5 =>
                  ([.rectOutline qx qy qex qey (.raw "#cccccc") 1,
                    .textPlain qx5 qy5 "Image" (.str "#999999")], Option.none)
                | _, _ => ([], some .typeError)
              | _, _ => ([], some .typeError)
          | _, _, _, _ => ([], some .typeError)
        | _, _ => ([], some .typeError)
      match src with
      | .str s =>
        let imgOpt :=
          if strStartsWith s "data:" then env.loadBase64 s
          else if strStartsWith s "http" then env.loadRemote s
          else env.loadLocal s
        match imgOpt with
        | Option.none => ([], Option.none)
        | some im =>
          match pyInt width, pyInt height with
          | .ok iw, .ok ih =>
            if iw < 0 ∨ ih < 0 then placeholder
            else
              match pyInt x, pyInt y with
              | .ok ix, .ok iy => ([.paste im iw ih ix iy], Option.none)
              | _, _ => placeholder
          | _, _ => placeholder
      | _ => placeholder
  | _ => ([], some .nameError)

/-- `int(font_size * dpi / 72)`, computed before `_render_text`'s `try`
(so its `TypeError` on a non-numeric font size escapes the node). -/
def scaleFontSize (fontSize : PyVal) (dpi : ℤ) : Except PyErr ℤ :=
  match fontSize with
  | .num q => .ok (((q.mul (Frac.ofInt dpi)).div 72).trunc)
  | .bool b => .ok ((((if b then (1 : Frac) else 0).mul (Frac.ofInt dpi)).div 72).trunc)
  | _ => .error .typeError

/-- The fallback of `_render_text`'s handler:
`draw.text((x, y), text, fill=fill)` with the raw attribute values; raises
when the coordinates are not numbers or the text is not a string. -/
def textFallback (x y textV fill : PyVal) (cache : FontCache) : RRes :=
  match pyNumQ x, pyNumQ y, textV with
  | .ok qx, .ok qy, .str s => ⟨[.textPlain qx qy s fill], cache, Option.none⟩
  | _, _, _ => ⟨[], cache, some .typeError⟩

/-- `DesignRenderer._render_text`.  Falsy text draws nothing.  The font size
is the only scaled quantity (`int(font_size * dpi / 72)`).  Inside the `try`:
resolve the font (memoizing), parse the fill, measure the text, shift `x`
left by the measured width (right align) or half of it (center align), and
draw.  Any exception in the `try` falls back to an unstyled `draw.text` at
the current `x`, whose own failure escapes the node. -/
def renderText (env : Env) (dpi : ℤ) (attrs : PyVal) (cache : FontCache) : RRes :=
  match attrs with
  | .dict fs =>
    let textV := lookupD fs "text" (.str "")
    if !pyTruthy textV then ⟨[], cache, Option.none⟩
    else
      let x := lookupD fs "x" (.num 0)
      let y := lookupD fs "y" (.num 0)
      let fontSize := lookupD fs "fontSize" (.num 16)
      let family := lookupD fs "fontFamily" (.str "Arial")
      let fill := lookupD fs "fill" (.str "#000000")
      match scaleFontSize fontSize dpi with
      | .error e => ⟨[], cache, some e⟩
      | .ok sfs =>
        let (font, cache') := getFont env cache family sfs
        let c := parseColor env fill
        let align := lookupD fs "align" (.str "left")
        match textV with
        | .str s =>
          let (b0, _, b2, _) := env.textbbox font s
          let tw := b2 - b0
          let xShifted : Except PyErr PyVal :=
            if pyEqStr align "center" then pySub x (.num (Frac.ofInt (Int.fdiv tw 2)))
            else if pyEqStr align "right" then pySub x (.num (Frac.ofInt tw))
            else .ok x
          match xShifted with
          | .error _ => textFallback x y textV fill cache'
          | .ok x' =>
            match pyNumQ x', pyNumQ y with
            | .ok qx, .ok qy => ⟨[.text qx qy s c font], cache', Option.none⟩
            | _, _ => textFallback x' y textV fill cache'
        | _ => textFallback x y textV fill cache'
  | _ => ⟨[], cache, some .attributeError⟩

mutual
/-- Size of a Python value (number of constructors), used as recursion fuel
for the node traversal: it strictly bounds the size of anything reachable
through a `children` field. -/
def psize : PyVal → ℕ
  | .none => 1
  | .bool _ => 1
  | .num _ => 1
  | .str _ => 1
  | .list xs => 1 + psizeL xs
  | .dict fs => 1 + psizeF fs
/-- Size of a list of Python values. -/
def psizeL : List PyVal → ℕ
  | [] => 1
  | x :: xs => psize x + psizeL xs
/-- Size of a field list of a dict value. -/
def psizeF : List (String × PyVal) → ℕ
  | [] => 1
  | (_, v) :: fs => 1 + psize v + psizeF fs
end

/-- The child loop of a `Group` in `_render_object`: children are rendered
in order with NO per-child handler, so the first exception aborts the rest of
the group (ops already drawn are kept, the exception propagates). -/
def groupChildren (f : PyVal → FontCache → RRes) :
    List PyVal → FontCache → RRes
  | [], cache => ⟨[], cache, Option.none⟩
  | c :: cs, cache =>
    let r := f c cache
    match r.err with
    | some e => ⟨r.ops, r.cache, some e⟩
    | Option.none =>
      let r2 := groupChildren f cs r.cache
      ⟨r.ops ++ r2.ops, r2.cache, r2.err⟩

/-- `DesignRenderer._render_object`, as a fuel-indexed recursion.  The fuel
(always instantiated with `psize` of the node, which strictly bounds the
recursion into `children` subterms, see `renderObjectGo_fuel`) only makes the
recursion structural; no reachable input exhausts it.

Dispatch is by the `className` string; an unrecognized kind (or a non-string
`className`) matches no branch and is skipped silently.  A non-dict object
raises `AttributeError` at `obj_data.get`.  For a `Group` the children are
rendered in order with no per-child handler.  Iterating a non-list
`children` value yields strings (characters / dict keys), each of which
raises `AttributeError` at its own `.get`, so a non-empty string or dict of
children aborts at its first element with no ops; a non-iterable raises
`TypeError` at the `for`. -/
def renderObjectGo (env : Env) (dpi : ℤ) : ℕ → PyVal → FontCache → RRes
  | 0, _, cache => ⟨[], cache, some .fuel⟩
  | fuel + 1, obj, cache =>
    match obj with
    | .dict fs =>
      let attrs := lookupD fs "attrs" (.dict [])
      let cn := lookupD fs "className" (.str "")
      if pyEqStr cn "Text" then renderText env dpi attrs cache
      else if pyEqStr cn "Rect" then
        let (ops, err) := renderRect env attrs; ⟨ops, cache, err⟩
      else if pyEqStr cn "Circle" then
        let (ops, err) := renderCircle env attrs; ⟨ops, cache, err⟩
      else if pyEqStr cn "Ellipse" then
        let (ops, err) := renderEllipse env attrs; ⟨ops, cache, err⟩
      else if pyEqStr cn "Line" then
        let (ops, err) := renderLine env attrs; ⟨ops, cache, err⟩
      else if pyEqStr cn "Image" then
        let (ops, err) := renderImage env attrs; ⟨ops, cache, err⟩
      else if pyEqStr cn "Group" then
        match lookupD fs "children" (.list []) with
        | .list xs => groupChildren (fun c cc => renderObjectGo env dpi fuel c cc) xs cache
        | .str s => if s = "" then ⟨[], cache, Option.none⟩
                    else ⟨[], cache, some .attributeError⟩
        | .dict gs => if gs.isEmpty then ⟨[], cache, Option.none⟩
                      else ⟨[], cache, some .attributeError⟩
        | _ => ⟨[], cache, some .typeError⟩
      else ⟨[], cache, Option.none⟩
    | _ => ⟨[], cache, some .attributeError⟩

/-- `_render_object` at its natural fuel. -/
def renderObject (env : Env) (dpi : ℤ) (obj : PyVal) (cache : FontCache) : RRes :=
  renderObjectGo env dpi (psize obj) obj cache

/-- The child loop of `_render_layer`: every child is wrapped in
`try/except Exception`, but the handler itself evaluates
`child.get('className', 'unknown')` to build its log message.  For a dict
child the handler succeeds and the loop continues with the next sibling
(ops and font-cache updates made before the raise are kept); for a NON-dict
child that `.get` raises `AttributeError`, which escapes `_render_layer`
and aborts the remaining siblings. -/
def layerLoop (env : Env) (dpi : ℤ) : List PyVal → FontCache → RRes
  | [], cache => ⟨[], cache, Option.none⟩
  | c :: cs, cache =>
    let r := renderObject env dpi c cache
    match r.err with
    | Option.none =>
      let r2 := layerLoop env dpi cs r.cache
      ⟨r.ops ++ r2.ops, r2.cache, r2.err⟩
    | some _ =>
      match c with
      | .dict _ =>
        let r2 := layerLoop env dpi cs r.cache
        ⟨r.ops ++ r2.ops, r2.cache, r2.err⟩
      | _ => ⟨r.ops, r.cache, some .attributeError⟩

/-- `DesignRenderer._render_layer`.  A non-dict layer raises at
`layer_data.get`.  A string/dict `children` value iterates as strings
(characters / keys): each such child's `_render_object` raises
`AttributeError`, and the handler's own `child.get` re-raises on that
non-dict child, so a NON-empty string or dict of children escapes with
`AttributeError` at its first element; a non-iterable `children` raises
`TypeError` at the `for`. -/
def renderLayer (env : Env) (dpi : ℤ) (layer : PyVal) (cache : FontCache) : RRes :=
  match layer with
  | .dict fs =>
    match lookupD fs "children" (.list []) with
    | .list xs => layerLoop env dpi xs cache
    | .str s => if s = "" then ⟨[], cache, Option.none⟩
                else ⟨[], cache, some .attributeError⟩
    | .dict gs => if gs.isEmpty then ⟨[], cache, Option.none⟩
                  else ⟨[], cache, some .attributeError⟩
    | _ => ⟨[], cache, some .typeError⟩
  | _ => ⟨[], cache, some .attributeError⟩

/-- The layer loop of `_render_design_to_image`: a layer's escaped exception
is caught by the surrounding top-level `try`, which stops rendering and
keeps what was already drawn. -/
def layersLoop (env : Env) (dpi : ℤ) :
    List PyVal → FontCache → List DrawOp × FontCache
  | [], cache => ([], cache)
  | l :: ls, cache =>
    let r := renderLayer env dpi l cache
    match r.err with
    | some _ => (r.ops, r.cache)
    | Option.none =>
      let (ops2, cache2) := layersLoop env dpi ls r.cache
      (r.ops ++ ops2, cache2)

/-- The raster produced by `_render_design_to_image`: a canvas of the
requested pixel size with a `'white'` background (`Image.new('RGB',
(width, height), 'white')`) and the draw calls performed on it. -/
structure RImage where
  width : ℤ
  height : ℤ
  ops : List DrawOp

/-- The background every canvas is created with. -/
def canvasBackground : PColor := .raw "white"

/-- `DesignRenderer._render_design_to_image`.  `Image.new` raises
`ValueError` on a negative size (before the `try`; this is the only
exception that can escape).  Inside the `try`: a string document goes
through `json.loads`; the layers are `stage.get('children', [])`; every
exception anywhere in parsing or the layer loop is caught, returning the
image as drawn so far (a fresh canvas is blank white). -/
def renderDesignToImage (env : Env) (design : PyVal) (w h : ℤ) (dpi : ℤ)
    (cache : FontCache) : Except PyErr RImage :=
  if w < 0 ∨ h < 0 then .error .valueError
  else
    let blank : RImage := ⟨w, h, []⟩
    let stage : Except PyErr PyVal :=
      match design with
      | .str s => env.jsonParse s
      | v => .ok v
    match stage with
    | .error _ => .ok blank
    | .ok sd =>
      match sd with
      | .dict fs =>
        match lookupD fs "children" (.list []) with
        | .list ls => .ok ⟨w, h, (layersLoop env dpi ls cache).1⟩
        | _ => .ok blank
      | _ => .ok blank

/-- `DesignRenderer.generate_preview`: renders at DPI 72 and encodes the
image as JPEG bytes.  The encoding of a valid RGB canvas is outside the
model; the `try/except` re-raises unchanged, so the call is the render. -/
def generatePreview (env : Env) (cache : FontCache) (design : PyVal)
    (w h : ℤ) : Except PyErr RImage :=
  renderDesignToImage env design w h 72 cache

/-- Failure switches for the I/O steps of `export_to_pdf`. -/
structure PdfIO where
  /-- `img.save(temp_file.name, format='PNG', ...)` raises. -/
  encodeFails : Bool
  /-- `c.drawImage(...)` raises. -/
  drawFails : Bool
  /-- `c.save()` raises. -/
  pdfSaveFails : Bool

/-- A produced PDF: one page of the stated size in points carrying the
raster full-bleed. -/
structure PdfPage where
  widthPts : Frac
  heightPts : Frac
  raster : RImage

/-- Outcome of `export_to_pdf`: the returned value or propagated exception,
plus whether the temporary PNG file is still on disk afterwards. -/
structure PdfOut where
  result : Except PyErr PdfPage
  tempLeft : Bool

/-- The millimetre → point factor used by the source (`2.834645669`). -/
def mmToPt : Frac := ⟨2834645669, 1000000000⟩

/-- The float literal `25.4`. -/
def mmPerInch : Frac := ⟨254, 10⟩

/-- `DesignRenderer.export_to_pdf`.  The pixel canvas is
`int(width_mm * dpi / 25.4)` square-bracket truncation (not rounding).  The
raster is written to a `NamedTemporaryFile(delete=False)`; if that write
raises, the outer handler re-raises with the file still on disk.  Failures
of `drawImage`/`save` are caught by the inner handler, which unlinks the
file and re-raises; on success the file is unlinked before returning.
(`os.unlink` itself is modelled as always succeeding; the source wraps its
second call in `try/except: pass`.) -/
def exportToPdf (env : Env) (io : PdfIO) (cache : FontCache) (design : PyVal)
    (widthMM heightMM : Frac) (dpi : ℤ) : PdfOut :=
  let wpx := ((widthMM.mul (Frac.ofInt dpi)).div mmPerInch).trunc
  let hpx := ((heightMM.mul (Frac.ofInt dpi)).div mmPerInch).trunc
  match renderDesignToImage env design wpx hpx dpi cache with
  | .error e => ⟨.error e, false⟩
  | .ok img =>
    let wpts := widthMM.mul mmToPt
    let hpts := heightMM.mul mmToPt
    if io.encodeFails then ⟨.error .oserror, true⟩
    else if io.drawFails ∨ io.pdfSaveFails then ⟨.error .oserror, false⟩
    else ⟨.ok ⟨wpts, hpts, img⟩, false⟩

/-! ## Pixel observer

A partial model of PIL's rasterization, enough to read pixels off a canvas:
draw calls are replayed in order (painter's algorithm — later calls
overwrite).  Fill geometry of axis-aligned rectangles and ellipses is exact
(PIL fills the inclusive bounding box / the inscribed ellipse); for
operations whose exact pixel coverage depends on data outside the model
(glyph shapes of text, decoded image content, PIL's outline/line thickness
conventions) the observer answers `unmodeled` on any pixel the operation
might touch, never a concrete color. -/

/-- What a pixel read can answer. -/
inductive PixelVal where
  | color (c : PColor)
  | unmodeled
  deriving DecidableEq

/-- Replay one draw call at pixel `(px, py)` over the previous value. -/
def opPixel (px py : ℚ) (prev : PixelVal) (op : DrawOp) : PixelVal :=
  match op with
  | .rectFill x0 y0 x1 y1 c =>
    if x0.val ≤ px ∧ px ≤ x1.val ∧ y0.val ≤ py ∧ py ≤ y1.val then .color c else prev
  | .rectOutline x0 y0 x1 y1 _ _ =>
    if x0.val ≤ px ∧ px ≤ x1.val ∧ y0.val ≤ py ∧ py ≤ y1.val then .unmodeled else prev
  | .ellipseFill x0 y0 x1 y1 c =>
    if ((2 * px - (x0.val + x1.val)) * (y1.val - y0.val)) ^ 2 +
        ((2 * py - (y0.val + y1.val)) * (x1.val - x0.val)) ^ 2 ≤
        ((x1.val - x0.val) * (y1.val - y0.val)) ^ 2 then .color c else prev
  | .ellipseOutline x0 y0 x1 y1 _ _ =>
    if x0.val ≤ px ∧ px ≤ x1.val ∧ y0.val ≤ py ∧ py ≤ y1.val then .unmodeled else prev
  | .lineSeg x1 y1 x2 y2 _ w =>
    if min x1.val x2.val - w ≤ px ∧ px ≤ max x1.val x2.val + w ∧
        min y1.val y2.val - w ≤ py ∧ py ≤ max y1.val y2.val + w then .unmodeled else prev
  | .text _ _ _ _ _ => .unmodeled
  | .textPlain _ _ _ _ => .unmodeled
  | .paste _ w h x y =>
    if (x : ℚ) ≤ px ∧ px < (x : ℚ) + w ∧ (y : ℚ) ≤ py ∧ py < (y : ℚ) + h then
      .unmodeled
    else prev

/-- Read the pixel at `(px, py)`: the white background overpainted by the
recorded draw calls in order. -/
def pixelAt (img : RImage) (px py : ℚ) : PixelVal :=
  img.ops.foldl (opPixel px py) (.color canvasBackground)

/-! ## Spec-side definitions

These definitions follow the specification's words, NOT the source; they
exist to state the claims that compare the code against the spec. -/

/-- Modelled from the spec: `mm_to_px(mm, dpi) = round(mm * dpi / 25.4)`
(§4.1 Unit Converter; the claim that `export_pdf` sizes its canvas this
way is what is under test). -/
def specMmToPx (mm : ℚ) (dpi : ℤ) : ℤ := round (mm * dpi / (254 / 10))

/-- Modelled from the spec: the data model's Canvas carries a declared
"background color" (§3); the renderer's input being a JSON object, the
declared background is its `background` field.  (The source never reads
such a field.) -/
def specDeclaredBackground (design : PyVal) : Option PyVal :=
  match design with
  | .dict fs => lookupF fs "background"
  | _ => Option.none

/-- A hexadecimal digit. -/
def isHexDigit (c : Char) : Bool :=
  c.isDigit || ('a' ≤ c && c ≤ 'f') || ('A' ≤ c && c ≤ 'F')

/-- Modelled from the spec: a valid hex color, `#rgb` or `#rrggbb` (§4.2). -/
def specValidHex (s : String) : Bool :=
  match s.toList with
  | '#' :: rest => (rest.length == 3 || rest.length == 6) && rest.all isHexDigit
  | _ => false

/-- Split a character list at commas. -/
def splitCommas : List Char → List (List Char)
  | [] => [[]]
  | ',' :: cs => [] :: splitCommas cs
  | c :: cs =>
    match splitCommas cs with
    | [] => [[c]]
    | g :: gs => (c :: g) :: gs

/-- A decimal integer component, surrounding spaces allowed. -/
def specIntComponent (cs : List Char) : Bool :=
  let t := (((cs.dropWhile (· = ' ')).reverse.dropWhile (· = ' ')).reverse)
  !t.isEmpty && t.all Char.isDigit

/-- A decimal number component (digits with at most one point). -/
def specNumComponent (cs : List Char) : Bool :=
  let t := (((cs.dropWhile (· = ' ')).reverse.dropWhile (· = ' ')).reverse)
  !t.isEmpty && t.all (fun c => c.isDigit || c = '.') &&
    (t.filter (· = '.')).length ≤ 1

/-- Modelled from the spec: valid `rgb(r, g, b)` / `rgba(r, g, b, a)`
syntax (§4.2). -/
def specValidRgbSyntax (s : String) : Bool :=
  match s.toList with
  | 'r' :: 'g' :: 'b' :: '(' :: rest =>
    match rest.reverse with
    | ')' :: body =>
      let comps := splitCommas body.reverse
      comps.length == 3 && comps.all specIntComponent
    | _ => false
  | 'r' :: 'g' :: 'b' :: 'a' :: '(' :: rest =>
    match rest.reverse with
    | ')' :: body =>
      let comps := splitCommas body.reverse
      comps.length == 4 && (comps.take 3).all specIntComponent &&
        (comps.drop 3).all specNumComponent
    | _ => false
  | _ => false

/-- Modelled from the spec: an input the Color Resolver must send to opaque
black — "not valid hex, not in the named-color table, and not valid
rgb()/rgba() syntax". -/
def specUnrecognizedColor (s : String) : Bool :=
  !specValidHex s && !(s ∈ namedColors : Bool) && !specValidRgbSyntax s

/-- The opaque-black result (`'#000000'`) the spec mandates for
unrecognized input. -/
def opaqueBlack : PColor := .raw "#000000"

/-- Claim-side notion of uniform scaling (§4.5): every coordinate, size and
font size of the base draw call multiplied by the same scalar `s`.  Stated
on the represented values. -/
def opScaledBy (s : ℚ) : DrawOp → DrawOp → Prop
  | .rectFill x0 y0 x1 y1 c, .rectFill x0' y0' x1' y1' c' =>
    x0'.val = s * x0.val ∧ y0'.val = s * y0.val ∧ x1'.val = s * x1.val ∧
      y1'.val = s * y1.val ∧ c' = c
  | .rectOutline x0 y0 x1 y1 c w, .rectOutline x0' y0' x1' y1' c' w' =>
    x0'.val = s * x0.val ∧ y0'.val = s * y0.val ∧ x1'.val = s * x1.val ∧
      y1'.val = s * y1.val ∧ c' = c ∧ (w' : ℚ) = s * w
  | .ellipseFill x0 y0 x1 y1 c, .ellipseFill x0' y0' x1' y1' c' =>
    x0'.val = s * x0.val ∧ y0'.val = s * y0.val ∧ x1'.val = s * x1.val ∧
      y1'.val = s * y1.val ∧ c' = c
  | .ellipseOutline x0 y0 x1 y1 c w, .ellipseOutline x0' y0' x1' y1' c' w' =>
    x0'.val = s * x0.val ∧ y0'.val = s * y0.val ∧ x1'.val = s * x1.val ∧
      y1'.val = s * y1.val ∧ c' = c ∧ (w' : ℚ) = s * w
  | .lineSeg x1 y1 x2 y2 c w, .lineSeg x1' y1' x2' y2' c' w' =>
    x1'.val = s * x1.val ∧ y1'.val = s * y1.val ∧ x2'.val = s * x2.val ∧
      y2'.val = s * y2.val ∧ c' = c ∧ (w' : ℚ) = s * w
  | .text x y str c f, .text x' y' str' c' f' =>
    x'.val = s * x.val ∧ y'.val = s * y.val ∧ str' = str ∧ c' = c ∧
      (match f, f' with
       | .truetypeF file sz, .truetypeF file' sz' => file' = file ∧ (sz' : ℚ) = s * sz
       | .builtin, .builtin => True
       | _, _ => False)
  | .textPlain x y str fill, .textPlain x' y' str' fill' =>
    x'.val = s * x.val ∧ y'.val = s * y.val ∧ str' = str ∧ fill' = fill
  | .paste img w h x y, .paste img' w' h' x' y' =>
    img' = img ∧ (w' : ℚ) = s * w ∧ (h' : ℚ) = s * h ∧ (x' : ℚ) = s * x ∧
      (y' : ℚ) = s * y
  | _, _ => False

/-- Claim-side: each draw call of `scaled` is the corresponding draw call of
`base` with all geometry multiplied by `s`. -/
def opsScaledBy (s : ℚ) (base scaled : List DrawOp) : Prop :=
  List.Forall₂ (opScaledBy s) base scaled

/-- Scenes containing no `Text` node anywhere (through nested `Group`s):
all the painting the renderer does for them is dpi-independent. -/
inductive NoText : PyVal → Prop where
  | nonDict : ∀ v, (∀ fs, v ≠ PyVal.dict fs) → NoText v
  | dict : ∀ fs, pyEqStr (lookupD fs "className" (.str "")) "Text" = false →
      (∀ xs, lookupD fs "children" (.list []) = .list xs → ∀ c ∈ xs, NoText c) →
      NoText (.dict fs)

/-- A design document (an in-memory dict, as produced by the editor) none of
whose layers contains a `Text` node. -/
def NoTextDoc (design : PyVal) : Prop :=
  ∃ fs, design = .dict fs ∧
    ∀ ls, lookupD fs "children" (.list []) = .list ls →
      ∀ l ∈ ls, ∀ gs, l = PyVal.dict gs →
        ∀ cs, lookupD gs "children" (.list []) = .list cs →
          ∀ c ∈ cs, NoText c

/-- A structurally invalid input document, as the renderer can observe it:
a string `json.loads` rejects, an object whose `children` is not a list
(wrong type), or a document that is not an object at all. -/
def InvalidDoc (env : Env) (design : PyVal) : Prop :=
  (∃ s e, design = .str s ∧ env.jsonParse s = .error e) ∨
  (∃ fs, design = .dict fs ∧ ∀ xs, lookupD fs "children" (.list []) ≠ .list xs) ∨
  ((∀ fs, design ≠ .dict fs) ∧ (∀ s, design ≠ .str s))

/-! ## Concrete environments and designs used by the closed statements -/

/-- A concrete environment: no loader finds anything, PIL's `getcolor`
rejects everything, truetype fonts load, text measures 10 px per character
with the baseline box `(0, 0, 10·len, 12)`, `json.loads` fails (only
exercised on string documents). -/
def envC : Env where
  jsonParse := fun _ => .error .valueError
  getcolor := fun _ => Option.none
  loadBase64 := fun _ => Option.none
  loadRemote := fun _ => Option.none
  loadLocal := fun _ => Option.none
  truetypeOk := fun _ _ => true
  defaultFontPath := "default.ttf"
  textbbox := fun _ s => (0, 0, 10 * s.length, 12)

/-- `envC` with every truetype load failing (no font file on the host). -/
def envNoFonts : Env :=
  { envC with truetypeOk := fun _ _ => false }

/-- `envC` with the remote loader succeeding (decoded image token `7`). -/
def envImgOk : Env :=
  { envC with loadRemote := fun _ => some ⟨7⟩ }

/-- A red 30×18 rectangle at (12, 0). -/
def rectNodeA : PyVal :=
  .dict [("className", .str "Rect"),
         ("attrs", .dict [("x", .num 12), ("y", .num 0), ("width", .num 30),
                          ("height", .num 18), ("fill", .str "#ff0000")])]

/-- A green 10×10 rectangle at (50, 50). -/
def rectNodeGreen : PyVal :=
  .dict [("className", .str "Rect"),
         ("attrs", .dict [("x", .num 50), ("y", .num 50), ("width", .num 10),
                          ("height", .num 10), ("fill", .str "#00ff00")])]

/-- A blue 10×10 rectangle at (70, 70). -/
def rectNodeBlue : PyVal :=
  .dict [("className", .str "Rect"),
         ("attrs", .dict [("x", .num 70), ("y", .num 70), ("width", .num 10),
                          ("height", .num 10), ("fill", .str "#0000ff")])]

/-- A rectangle whose `strokeWidth` is the string `"x"`: painting it
evaluates `stroke_width > 0`, which raises `TypeError`. -/
def rectNodeBad : PyVal :=
  .dict [("className", .str "Rect"),
         ("attrs", .dict [("stroke", .str "#000000"), ("strokeWidth", .str "x")])]

/-- An image node whose remote source is unreachable in `envC`. -/
def imageNodeRemote : PyVal :=
  .dict [("className", .str "Image"),
         ("attrs", .dict [("x", .num 10), ("y", .num 20), ("width", .num 100),
                          ("height", .num 100),
                          ("src", .str "http://img.example/pic.png")])]

/-- An image node with no `src` attribute at all. -/
def imageNodeNoSrc : PyVal :=
  .dict [("className", .str "Image"),
         ("attrs", .dict [("x", .num 10), ("y", .num 20), ("width", .num 100),
                          ("height", .num 100)])]

/-- A text node whose font family maps to a file. -/
def textNodeA : PyVal :=
  .dict [("className", .str "Text"),
         ("attrs", .dict [("text", .str "Hi"), ("x", .num 10), ("y", .num 20),
                          ("fontSize", .num 16), ("fontFamily", .str "Arial")])]

/-- Wrap a list of nodes as a one-layer design document. -/
def designOf (nodes : List PyVal) : PyVal :=
  .dict [("children", .list [.dict [("children", .list nodes)]])]

/-- One layer with a single red rectangle. -/
def designRect : PyVal := designOf [rectNodeA]

/-- Unreachable image followed by a sibling rectangle. -/
def designImageThenRect : PyVal := designOf [imageNodeRemote, rectNodeGreen]

/-- Image with no `src` followed by a sibling rectangle. -/
def designNoSrcThenRect : PyVal := designOf [imageNodeNoSrc, rectNodeGreen]

/-- A structurally invalid document: `children` is a number, so the layer
iteration raises `TypeError` inside the renderer's `try`. -/
def designBadChildren : PyVal := .dict [("children", .num 5)]

/-- A zero-node scene that declares a red background. -/
def designEmptyRedBg : PyVal :=
  .dict [("background", .str "#ff0000"), ("children", .list [])]

/-- A zero-node scene. -/
def designEmpty : PyVal := .dict [("children", .list [])]

/-- One layer: a `Group` holding a raising rectangle followed by a green
sibling, then a top-level blue sibling. -/
def designGroupBad : PyVal :=
  designOf [.dict [("className", .str "Group"),
                   ("children", .list [rectNodeBad, rectNodeGreen])],
            rectNodeBlue]

/-! ## General lemmas about the traversal -/

@[simp] theorem Frac.n_ofNat (k : ℕ) :
    Frac.n (no_index (OfNat.ofNat k)) = OfNat.ofNat k := rfl

@[simp] theorem Frac.d_ofNat (k : ℕ) :
    Frac.d (no_index (OfNat.ofNat k)) = 1 := rfl

theorem psize_pos (v : PyVal) : 1 ≤ psize v := by
  cases v <;> simp [psize]

theorem psizeL_mem {c : PyVal} : ∀ {xs : List PyVal}, c ∈ xs → psize c ≤ psizeL xs := by
  intro xs
  induction xs with
  | nil => intro h; cases h
  | cons x xs ih =>
    intro h
    rcases List.mem_cons.mp h with h | h
    · subst h; simp [psizeL]
    · have := ih h; simp [psizeL]; omega

theorem lookupF_psizeF {v : PyVal} {key : String} :
    ∀ {fs : List (String × PyVal)}, lookupF fs key = some v → psize v ≤ psizeF fs := by
  intro fs
  induction fs with
  | nil => intro h; simp [lookupF] at h
  | cons p fs ih =>
    intro h
    rcases p with ⟨k, w⟩
    by_cases hk : k = key
    · subst hk
      simp [lookupF] at h
      subst h
      simp [psizeF]
      omega
    · simp [lookupF, hk] at h
      have := ih h
      simp [psizeF]
      omega

theorem children_mem_psize {fs : List (String × PyVal)} {xs : List PyVal} {c : PyVal}
    (hch : lookupD fs "children" (.list []) = .list xs) (hc : c ∈ xs) :
    psize c + 2 ≤ psize (.dict fs) := by
  unfold lookupD at hch
  cases h : lookupF fs "children" with
  | none =>
    rw [h] at hch
    simp [Option.getD] at hch
    subst hch
    cases hc
  | some v =>
    rw [h] at hch
    simp [Option.getD] at hch
    subst hch
    have h1 := lookupF_psizeF h
    have h2 := psizeL_mem hc
    simp [psize] at h1 ⊢
    omega

theorem groupChildren_congr {f g : PyVal → FontCache → RRes}
    {xs : List PyVal} (h : ∀ c ∈ xs, ∀ cc, f c cc = g c cc) :
    ∀ cache, groupChildren f xs cache = groupChildren g xs cache := by
  induction xs with
  | nil => intro cache; rfl
  | cons c cs ih =>
    intro cache
    have hc := h c (List.mem_cons_self c cs)
    have hrest : ∀ x ∈ cs, ∀ cc, f x cc = g x cc :=
      fun x hx => h x (List.mem_cons_of_mem c hx)
    simp only [groupChildren, hc, ih hrest]

/-- Any fuel at least `psize obj` computes `_render_object`'s true
(unbounded) recursion: the fuel is an artifact of the embedding, not of the
source. -/
theorem renderObjectGo_fuel_aux (env : Env) (dpi : ℤ) :
    ∀ k m n obj cache, psize obj ≤ m → psize obj ≤ n → m ≤ k →
      renderObjectGo env dpi m obj cache = renderObjectGo env dpi n obj cache := by
  intro k
  induction k with
  | zero =>
    intro m n obj cache hm hn hk
    have := psize_pos obj
    omega
  | succ k ih =>
    intro m n obj cache hm hn hk
    have hobj := psize_pos obj
    match m, n with
    | 0, _ => omega
    | _ + 1, 0 => omega
    | m' + 1, n' + 1 =>
      cases obj with
      | dict fs =>
        simp only [renderObjectGo]
        by_cases h1 : pyEqStr (lookupD fs "className" (.str "")) "Text" = true
        · simp only [h1, if_true]
        · simp only [h1, Bool.false_eq_true, if_false]
          by_cases h2 : pyEqStr (lookupD fs "className" (.str "")) "Rect" = true
          · simp only [h2, if_true]
          · simp only [h2, Bool.false_eq_true, if_false]
            by_cases h3 : pyEqStr (lookupD fs "className" (.str "")) "Circle" = true
            · simp only [h3, if_true]
            · simp only [h3, Bool.false_eq_true, if_false]
              by_cases h4 : pyEqStr (lookupD fs "className" (.str "")) "Ellipse" = true
              · simp only [h4, if_true]
              · simp only [h4, Bool.false_eq_true, if_false]
                by_cases h5 : pyEqStr (lookupD fs "className" (.str "")) "Line" = true
                · simp only [h5, if_true]
                · simp only [h5, Bool.false_eq_true, if_false]
                  by_cases h6 : pyEqStr (lookupD fs "className" (.str "")) "Image" = true
                  · simp only [h6, if_true]
                  · simp only [h6, Bool.false_eq_true, if_false]
                    by_cases h7 : pyEqStr (lookupD fs "className" (.str "")) "Group" = true
                    · simp only [h7, if_true]
                      cases hch : lookupD fs "children" (.list []) with
                      | list xs =>
                        refine groupChildren_congr ?_ cache
                        intro c hc cc
                        have hsz := children_mem_psize hch hc
                        simp [psize] at hsz hm hn
                        exact ih m' n' c cc (by omega) (by omega) (by omega)
                      | none => rfl
                      | bool b => rfl
                      | num q => rfl
                      | str s => rfl
                      | dict gs => rfl
                    · simp only [h7, Bool.false_eq_true, if_false]
      | none => rfl
      | bool b => rfl
      | num q => rfl
      | str s => rfl
      | list xs => rfl

/-- `renderObjectGo` at any sufficient fuel equals `renderObject`. -/
theorem renderObjectGo_fuel (env : Env) (dpi : ℤ) (n : ℕ) (obj : PyVal)
    (cache : FontCache) (h : psize obj ≤ n) :
    renderObjectGo env dpi n obj cache = renderObject env dpi obj cache := by
  exact renderObjectGo_fuel_aux env dpi n n (psize obj) obj cache h le_rfl le_rfl

/-- Painting a node containing no `Text` (also through nested groups) is
independent of the DPI: only `_render_text` reads `dpi`. -/
theorem renderObjectGo_dpi_of_noText (env : Env) (dpi₁ dpi₂ : ℤ) :
    ∀ n obj cache, NoText obj →
      renderObjectGo env dpi₁ n obj cache = renderObjectGo env dpi₂ n obj cache := by
  intro n
  induction n with
  | zero => intro obj cache _; rfl
  | succ n ih =>
    intro obj cache hnt
    cases obj with
    | dict fs =>
      have hcn : pyEqStr (lookupD fs "className" (.str "")) "Text" = false := by
        cases hnt with
        | nonDict v h => exact absurd rfl (h fs)
        | dict fs h _ => exact h
      have hch : ∀ xs, lookupD fs "children" (.list []) = .list xs →
          ∀ c ∈ xs, NoText c := by
        cases hnt with
        | nonDict v h => exact absurd rfl (h fs)
        | dict fs _ h => exact h
      simp only [renderObjectGo]
      simp only [hcn, Bool.false_eq_true, if_false]
      by_cases h2 : pyEqStr (lookupD fs "className" (.str "")) "Rect" = true
      · simp only [h2, if_true]
      · simp only [h2, Bool.false_eq_true, if_false]
        by_cases h3 : pyEqStr (lookupD fs "className" (.str "")) "Circle" = true
        · simp only [h3, if_true]
        · simp only [h3, Bool.false_eq_true, if_false]
          by_cases h4 : pyEqStr (lookupD fs "className" (.str "")) "Ellipse" = true
          · simp only [h4, if_true]
          · simp only [h4, Bool.false_eq_true, if_false]
            by_cases h5 : pyEqStr (lookupD fs "className" (.str "")) "Line" = true
            · simp only [h5, if_true]
            · simp only [h5, Bool.false_eq_true, if_false]
              by_cases h6 : pyEqStr (lookupD fs "className" (.str "")) "Image" = true
              · simp only [h6, if_true]
              · simp only [h6, Bool.false_eq_true, if_false]
                by_cases h7 : pyEqStr (lookupD fs "className" (.str "")) "Group" = true
                · simp only [h7, if_true]
                  cases hck : lookupD fs "children" (.list []) with
                  | list xs =>
                    refine groupChildren_congr ?_ cache
                    intro c hc cc
                    exact ih c cc (hch xs hck c hc)
                  | none => rfl
                  | bool b => rfl
                  | num q => rfl
                  | str s => rfl
                  | dict gs => rfl
                · simp only [h7, Bool.false_eq_true, if_false]
    | none => rfl
    | bool b => rfl
    | num q => rfl
    | str s => rfl
    | list xs => rfl

theorem renderObject_dpi_of_noText (env : Env) (dpi₁ dpi₂ : ℤ) (obj : PyVal)
    (cache : FontCache) (h : NoText obj) :
    renderObject env dpi₁ obj cache = renderObject env dpi₂ obj cache :=
  renderObjectGo_dpi_of_noText env dpi₁ dpi₂ (psize obj) obj cache h

theorem layerLoop_dpi_of_noText (env : Env) (dpi₁ dpi₂ : ℤ) :
    ∀ cs cache, (∀ c ∈ cs, NoText c) →
      layerLoop env dpi₁ cs cache = layerLoop env dpi₂ cs cache := by
  intro cs
  induction cs with
  | nil => intro cache _; rfl
  | cons c cs ih =>
    intro cache h
    simp only [layerLoop]
    rw [renderObject_dpi_of_noText env dpi₁ dpi₂ c cache (h c (List.mem_cons_self c cs)),
      ih _ (fun x hx => h x (List.mem_cons_of_mem c hx))]

theorem renderLayer_dpi_of_noText (env : Env) (dpi₁ dpi₂ : ℤ) (l : PyVal)
    (cache : FontCache)
    (h : ∀ gs, l = PyVal.dict gs → ∀ cs, lookupD gs "children" (.list []) = .list cs →
      ∀ c ∈ cs, NoText c) :
    renderLayer env dpi₁ l cache = renderLayer env dpi₂ l cache := by
  cases l with
  | dict gs =>
    simp only [renderLayer]
    cases hck : lookupD gs "children" (.list []) with
    | list cs =>
      dsimp only
      rw [layerLoop_dpi_of_noText env dpi₁ dpi₂ cs cache (h gs rfl cs hck)]
    | none => rfl
    | bool b => rfl
    | num q => rfl
    | str s => rfl
    | dict hs => rfl
  | none => rfl
  | bool b => rfl
  | num q => rfl
  | str s => rfl
  | list xs => rfl

theorem layersLoop_dpi_of_noText (env : Env) (dpi₁ dpi₂ : ℤ) :
    ∀ ls cache,
      (∀ l ∈ ls, ∀ gs, l = PyVal.dict gs →
        ∀ cs, lookupD gs "children" (.list []) = .list cs → ∀ c ∈ cs, NoText c) →
      layersLoop env dpi₁ ls cache = layersLoop env dpi₂ ls cache := by
  intro ls
  induction ls with
  | nil => intro cache _; rfl
  | cons l ls ih =>
    intro cache h
    simp only [layersLoop]
    rw [renderLayer_dpi_of_noText env dpi₁ dpi₂ l cache (h l (List.mem_cons_self l ls)),
      ih _ (fun x hx => h x (List.mem_cons_of_mem l hx))]

/-- When every child of a layer is a dict — the shape the browser editor
produces — the per-child handler's `child.get` never re-raises, so the
layer loop runs to the end with no escaping exception. -/
theorem layerLoop_dicts (env : Env) (dpi : ℤ) :
    ∀ xs cache, (∀ c ∈ xs, ∃ gs, c = PyVal.dict gs) →
      (layerLoop env dpi xs cache).err = Option.none := by
  intro xs
  induction xs with
  | nil => intro cache _; rfl
  | cons c cs ih =>
    intro cache h
    obtain ⟨gs, rfl⟩ := h c (List.mem_cons_self c cs)
    have hrest := fun x hx => h x (List.mem_cons_of_mem _ hx)
    simp only [layerLoop]
    cases (renderObject env dpi (.dict gs) cache).err with
    | none => exact ih _ hrest
    | some e => exact ih _ hrest

/-- Over dict children the per-child `try/except` of `_render_layer` makes
the loop compositional: the ops of a sublist appear in place regardless of
any painting failures inside it. -/
theorem layerLoop_append_dicts (env : Env) (dpi : ℤ) :
    ∀ xs ys cache, (∀ c ∈ xs, ∃ gs, c = PyVal.dict gs) →
      layerLoop env dpi (xs ++ ys) cache =
        ⟨(layerLoop env dpi xs cache).ops ++
          (layerLoop env dpi ys (layerLoop env dpi xs cache).cache).ops,
         (layerLoop env dpi ys (layerLoop env dpi xs cache).cache).cache,
         (layerLoop env dpi ys (layerLoop env dpi xs cache).cache).err⟩ := by
  intro xs
  induction xs with
  | nil => intro ys cache _; simp [layerLoop]
  | cons c cs ih =>
    intro ys cache h
    obtain ⟨gs, rfl⟩ := h c (List.mem_cons_self c cs)
    have hrest := fun x hx => h x (List.mem_cons_of_mem _ hx)
    simp only [List.cons_append, layerLoop]
    cases (renderObject env dpi (.dict gs) cache).err with
    | none => simp [ih _ _ hrest, List.append_assoc]
    | some e => simp [ih _ _ hrest, List.append_assoc]

/-- A successful `_render_design_to_image` always hands back a canvas of the
requested dimensions. -/
theorem renderDesignToImage_dims (env : Env) (design : PyVal) (w h dpi : ℤ)
    (cache : FontCache) (img : RImage)
    (hok : renderDesignToImage env design w h dpi cache = .ok img) :
    img.width = w ∧ img.height = h := by
  unfold renderDesignToImage at hok
  by_cases hwh : w < 0 ∨ h < 0
  · rw [if_pos hwh] at hok; cases hok
  · rw [if_neg hwh] at hok
    cases design <;> dsimp only at hok <;> repeat' split at hok
    all_goals (cases hok; exact ⟨rfl, rfl⟩)

/-! ## Claims -/

/-- C10: for every Image node whose source reference attribute is absent or
the empty string, the renderer draws nothing for that node — no image, no
placeholder, no error — and (closed part) rendering continues with the next
node: a sibling rectangle after such an image node is still painted. -/
theorem claim_C10_image_without_src_draws_nothing
    (env : Env) (fs : List (String × PyVal))
    (h : lookupF fs "src" = Option.none ∨ lookupF fs "src" = some (.str "")) :
    renderImage env (.dict fs) = ([], Option.none) ∧
    renderDesignToImage envC designNoSrcThenRect 100 100 72 [] =
      .ok ⟨100, 100, [.rectFill 50 50 60 60 (.raw "#00ff00")]⟩ := by
  constructor
  · have hsrc : lookupD fs "src" (.str "") = .str "" := by
      rcases h with h | h <;> simp [lookupD, h]
    simp [renderImage, hsrc, pyTruthy]
  · rfl

/-- Witness for C10 at a concrete image node with no `src`. -/
theorem claim_C10_witness :
    renderImage envC (.dict [("x", .num 10), ("y", .num 20), ("width", .num 100),
      ("height", .num 100)]) = ([], Option.none) ∧
    renderDesignToImage envC designNoSrcThenRect 100 100 72 [] =
      .ok ⟨100, 100, [.rectFill 50 50 60 60 (.raw "#00ff00")]⟩ :=
  claim_C10_image_without_src_draws_nothing envC _ (Or.inl rfl)

/-- C9: `_get_font` always succeeds and never raises: on a cache miss with a
resolvable mapping it loads the mapped file; if that cannot be loaded it
falls back to the default system font; if that also fails it falls back to
the built-in bitmap font; and (closed part) a Text node in an environment
where no font file loads still renders, using the built-in font, with no
error. -/
theorem claim_C9_get_font_fallback_chain
    (env : Env) (cache : FontCache) (family : PyVal) (size : ℤ) (file : String)
    (hmiss : cacheFind cache (pyStrRepr family ++ "_" ++ toString size) = Option.none)
    (hfile : familyToFile env family = .ok file) :
    (∃ f cache', getFont env cache family size = (f, cache')) ∧
    (env.truetypeOk file size = true →
      (getFont env cache family size).1 = Font.truetypeF file size) ∧
    (env.truetypeOk file size = false → env.truetypeOk env.defaultFontPath size = true →
      (getFont env cache family size).1 = Font.truetypeF env.defaultFontPath size) ∧
    (env.truetypeOk file size = false → env.truetypeOk env.defaultFontPath size = false →
      (getFont env cache family size).1 = Font.builtin) ∧
    (renderObject envNoFonts 72 textNodeA []).err = Option.none ∧
    (renderObject envNoFonts 72 textNodeA []).ops =
      [.text 10 20 "Hi" (.raw "#000000") Font.builtin] := by
  refine ⟨⟨_, _, rfl⟩, ?_, ?_, ?_, by rfl, by rfl⟩
  · intro h1; simp [getFont, hmiss, hfile, h1]
  · intro h1 h2; simp [getFont, hmiss, hfile, h1, h2]
  · intro h1 h2; simp [getFont, hmiss, hfile, h1, h2]

/-- Witness for C9: an `Arial` request of size 16 against an empty cache in
an environment with no loadable font files. -/
theorem claim_C9_witness :
    (∃ f cache', getFont envNoFonts [] (.str "Arial") 16 = (f, cache')) ∧
    (envNoFonts.truetypeOk "arial.ttf" 16 = true →
      (getFont envNoFonts [] (.str "Arial") 16).1 = Font.truetypeF "arial.ttf" 16) ∧
    (envNoFonts.truetypeOk "arial.ttf" 16 = false →
      envNoFonts.truetypeOk envNoFonts.defaultFontPath 16 = true →
      (getFont envNoFonts [] (.str "Arial") 16).1 =
        Font.truetypeF envNoFonts.defaultFontPath 16) ∧
    (envNoFonts.truetypeOk "arial.ttf" 16 = false →
      envNoFonts.truetypeOk envNoFonts.defaultFontPath 16 = false →
      (getFont envNoFonts [] (.str "Arial") 16).1 = Font.builtin) ∧
    (renderObject envNoFonts 72 textNodeA []).err = Option.none ∧
    (renderObject envNoFonts 72 textNodeA []).ops =
      [.text 10 20 "Hi" (.raw "#000000") Font.builtin] :=
  claim_C9_get_font_fallback_chain envNoFonts [] (.str "Arial") 16 "arial.ttf" rfl rfl

/-- C8, counterexample: `"#zzzzzz"` is not valid hex, not a named color and
not rgb()/rgba() syntax, yet `_parse_color` returns it verbatim instead of
opaque black (anything starting with `#` is passed through unvalidated). -/
theorem claim_C8_counterexample :
    specUnrecognizedColor "#zzzzzz" = true ∧
    parseColor envC (.str "#zzzzzz") = .raw "#zzzzzz" ∧
    PColor.raw "#zzzzzz" ≠ opaqueBlack := by
  refine ⟨by decide, by rfl, by decide⟩

/-- C8 (amended): `_parse_color` never raises — it is total on arbitrary
attribute values — but only inputs reaching PIL's `getcolor` resolve to
black on failure: falsy values, non-string values, and strings that do not
start with `#`/`rgb`, are not in the named table, and are rejected by
`getcolor`.  Strings starting with `#` or `rgb` are returned verbatim with
no validation. -/
theorem claim_C8_unrecognized_resolves_black
    (env : Env) (s : String)
    (h1 : strStartsWith s "#" = false) (h2 : strStartsWith s "rgb" = false)
    (h3 : s ∉ namedColors) (h4 : env.getcolor s = Option.none) :
    parseColor env (.str s) = opaqueBlack ∧
    (∀ v, pyTruthy v = false → parseColor env v = opaqueBlack) ∧
    (∀ q : Frac, parseColor env (.num q) = opaqueBlack) ∧
    (∀ t, strStartsWith t "#" = true → parseColor env (.str t) = .raw t) := by
  refine ⟨?_, ?_, ?_, ?_⟩
  · by_cases hs : s = ""
    · subst hs; rfl
    · simp [parseColor, pyTruthy, hs, h1, h2, h3, h4, opaqueBlack]
  · intro v hv; simp [parseColor, hv, opaqueBlack]
  · intro q
    by_cases hq : pyTruthy (.num q) = false
    · simp [parseColor, hq, opaqueBlack]
    · simp only [Bool.not_eq_false] at hq
      simp [parseColor, hq, opaqueBlack]
  · intro t ht
    have hne : t ≠ "" := by
      intro he; subst he; exact absurd ht (by decide)
    simp [parseColor, pyTruthy, hne, ht, opaqueBlack]

/-- Witness for C8's amended statement at `"banana"` (rejected by
`getcolor` in `envC`). -/
theorem claim_C8_witness :
    parseColor envC (.str "banana") = opaqueBlack ∧
    (∀ v, pyTruthy v = false → parseColor envC v = opaqueBlack) ∧
    (∀ q : Frac, parseColor envC (.num q) = opaqueBlack) ∧
    (∀ t, strStartsWith t "#" = true → parseColor envC (.str t) = .raw t) :=
  claim_C8_unrecognized_resolves_black envC "banana" (by decide) (by decide)
    (by decide) rfl

/-- C2, counterexample: an Image node whose remote source is unreachable
(the loader returns `None`) draws NOTHING — the result of rendering it next
to a sibling rectangle contains only the sibling's fill and no placeholder
rectangle of any kind, while the claim requires an outline placeholder of
the node's declared 100×100 size at (10, 20). -/
theorem claim_C2_counterexample :
    renderDesignToImage envC designImageThenRect 200 200 72 [] =
      .ok ⟨200, 200, [.rectFill 50 50 60 60 (.raw "#00ff00")]⟩ ∧
    (∀ x0 y0 x1 y1 c w,
      DrawOp.rectOutline x0 y0 x1 y1 c w ∉
        [DrawOp.rectFill 50 50 60 60 (PColor.raw "#00ff00")]) := by
  refine ⟨by rfl, ?_⟩
  intro x0 y0 x1 y1 c w hmem
  simp at hmem

/-- C2 (amended): when the asset loader returns `None` the image node is
skipped silently — no ops, no error — and traversal continues.  The
placeholder (a `#cccccc` outline of the declared size plus an `"Image"`
label) is drawn only when painting the node raises with a well-ordered
declared box, e.g. a non-string `src` (first closed part); when the raise
comes from a NEGATIVE declared width, the handler's own `draw.rectangle`
on the inverted box raises `ValueError` (Pillow ≥ 9.2 rejects misordered
coordinates) and the exception escapes the node with nothing drawn (second
closed part). -/
theorem claim_C2_loader_none_draws_nothing
    (env : Env) (fs : List (String × PyVal)) (s : String)
    (hsrc : lookupF fs "src" = some (.str s)) (hne : s ≠ "")
    (hdata : strStartsWith s "data:" = false)
    (hhttp : strStartsWith s "http" = true)
    (hload : env.loadRemote s = Option.none) :
    renderImage env (.dict fs) = ([], Option.none) ∧
    renderImage envC (.dict [("x", .num 10), ("y", .num 20),
      ("width", .num 100), ("height", .num 100), ("src", .num 1)]) =
      ([.rectOutline 10 20 110 120 (.raw "#cccccc") 1,
        .textPlain 15 25 "Image" (.str "#999999")], Option.none) ∧
    renderImage envImgOk (.dict [("x", .num 10), ("y", .num 20),
      ("width", .num (⟨-5, 1⟩ : Frac)), ("height", .num 100),
      ("src", .str "http://img.example/pic.png")]) =
      ([], some .valueError) := by
  refine ⟨?_, by rfl, by rfl⟩
  have h0 : lookupD fs "src" (.str "") = .str s := by simp [lookupD, hsrc]
  simp [renderImage, h0, pyTruthy, hne, hdata, hhttp, hload]

/-- Witness for C2's amended statement at the concrete unreachable-image
node. -/
theorem claim_C2_witness :
    renderImage envC (.dict [("x", .num 10), ("y", .num 20), ("width", .num 100),
      ("height", .num 100), ("src", .str "http://img.example/pic.png")]) =
      ([], Option.none) ∧
    renderImage envC (.dict [("x", .num 10), ("y", .num 20),
      ("width", .num 100), ("height", .num 100), ("src", .num 1)]) =
      ([.rectOutline 10 20 110 120 (.raw "#cccccc") 1,
        .textPlain 15 25 "Image" (.str "#999999")], Option.none) ∧
    renderImage envImgOk (.dict [("x", .num 10), ("y", .num 20),
      ("width", .num (⟨-5, 1⟩ : Frac)), ("height", .num 100),
      ("src", .str "http://img.example/pic.png")]) =
      ([], some .valueError) :=
  claim_C2_loader_none_draws_nothing envC _ "http://img.example/pic.png"
    rfl (by decide) (by decide) (by decide) rfl

/-- C3, counterexample: a structurally invalid document (its `children`
field is the number 5, so the layer iteration raises `TypeError`) does NOT
surface any error: `generate_preview` succeeds and produces a blank white
raster of the requested 400×300 size. -/
theorem claim_C3_counterexample :
    generatePreview envC [] designBadChildren 400 300 = .ok ⟨400, 300, []⟩ ∧
    (∀ e : PyErr, generatePreview envC [] designBadChildren 400 300 ≠ .error e) := by
  refine ⟨by rfl, ?_⟩
  intro e h
  rw [show generatePreview envC [] designBadChildren 400 300 = .ok ⟨400, 300, []⟩
    from rfl] at h
  cases h

/-- C3 (amended): for every structurally invalid document (an unparseable
string, an object whose `children` is not a list, or a non-object), the
renderer catches the exception internally and returns a blank white canvas
of the requested dimensions; no error reaches the caller and the preview
call succeeds with that blank raster. -/
theorem claim_C3_invalid_doc_blank_canvas
    (env : Env) (cache : FontCache) (design : PyVal) (w h dpi : ℤ)
    (hw : 0 ≤ w) (hh : 0 ≤ h) (hbad : InvalidDoc env design) :
    renderDesignToImage env design w h dpi cache = .ok ⟨w, h, []⟩ ∧
    generatePreview env cache design w h = .ok ⟨w, h, []⟩ := by
  have hwh : ¬(w < 0 ∨ h < 0) := by omega
  have key : ∀ d : ℤ, renderDesignToImage env design w h d cache = .ok ⟨w, h, []⟩ := by
    intro d
    rcases hbad with ⟨s, e, rfl, hjson⟩ | ⟨fs, rfl, hch⟩ | ⟨hnd, hns⟩
    · simp [renderDesignToImage, hwh, hjson]
    · simp only [renderDesignToImage, if_neg hwh]
    · cases design with
      | dict fs => exact absurd rfl (hnd fs)
      | str s => exact absurd rfl (hns s)
      | none => simp [renderDesignToImage, hwh]
      | bool b => simp [renderDesignToImage, hwh]
      | num q => simp [renderDesignToImage, hwh]
      | list xs => simp [renderDesignToImage, hwh]
  exact ⟨key dpi, key 72⟩

/-- Witness for C3's amended statement at the concrete invalid document. -/
theorem claim_C3_witness :
    renderDesignToImage envC designBadChildren 400 300 300 [] = .ok ⟨400, 300, []⟩ ∧
    generatePreview envC [] designBadChildren 400 300 = .ok ⟨400, 300, []⟩ :=
  claim_C3_invalid_doc_blank_canvas envC [] designBadChildren 400 300 300
    (by decide) (by decide)
    (Or.inr (Or.inl ⟨_, rfl, fun xs h => by cases h⟩))

/-- C4, counterexample: when writing the rasterized PNG to the temporary
file fails (`img.save` raises), `export_to_pdf` propagates the exception
with the temporary file still on disk — the `with NamedTemporaryFile`
block has `delete=False` and nothing unlinks on that path. -/
theorem claim_C4_counterexample :
    (exportToPdf envC ⟨true, false, false⟩ [] designEmpty ⟨90, 1⟩ ⟨54, 1⟩ 300).tempLeft
      = true ∧
    (exportToPdf envC ⟨true, false, false⟩ [] designEmpty ⟨90, 1⟩ ⟨54, 1⟩ 300).result
      = .error .oserror := ⟨rfl, rfl⟩

/-- C4 (amended): the temporary file is deleted on success and on failures
of PDF assembly (`drawImage`/`save`), but NOT when the raster encoding to
the temp file itself fails; as long as the encoding step succeeds, no exit
path leaves the file on disk. -/
theorem claim_C4_temp_released_unless_encoding_fails
    (env : Env) (io : PdfIO) (cache : FontCache) (design : PyVal)
    (wmm hmm : Frac) (dpi : ℤ) (henc : io.encodeFails = false) :
    (exportToPdf env io cache design wmm hmm dpi).tempLeft = false := by
  unfold exportToPdf
  simp only [henc, Bool.false_eq_true, if_false]
  split
  · rfl
  · split <;> rfl

/-- Witness for C4's amended statement: a run whose encoding step succeeds
but whose PDF assembly fails still deletes the temp file. -/
theorem claim_C4_witness :
    (exportToPdf envC ⟨false, true, false⟩ [] designEmpty ⟨90, 1⟩ ⟨54, 1⟩ 300).tempLeft
      = false :=
  claim_C4_temp_released_unless_encoding_fails envC ⟨false, true, false⟩ []
    designEmpty ⟨90, 1⟩ ⟨54, 1⟩ 300 rfl

/-- C5, counterexample: a zero-node scene declaring a red background is
rasterized as an all-white canvas: the renderer always fills with `'white'`
and never reads the declared background color (the dimensions, however, are
exactly as requested). -/
theorem claim_C5_counterexample :
    renderDesignToImage envC designEmptyRedBg 50 40 300 [] = .ok ⟨50, 40, []⟩ ∧
    (∀ px py : ℚ, pixelAt ⟨50, 40, []⟩ px py = .color canvasBackground) ∧
    specDeclaredBackground designEmptyRedBg = some (.str "#ff0000") ∧
    canvasBackground ≠ .raw "#ff0000" := by
  refine ⟨by rfl, fun px py => rfl, by rfl, by decide⟩

/-- C5 (amended): for every zero-node scene and every requested
non-negative width and height, the raster has exactly the requested pixel
dimensions, performs no draw call, and every pixel reads as white — the
canvas background the code always uses, regardless of any declared
background color. -/
theorem claim_C5_blank_scene_white_canvas
    (env : Env) (cache : FontCache) (design : PyVal)
    (fs : List (String × PyVal)) (w h dpi : ℤ)
    (hw : 0 ≤ w) (hh : 0 ≤ h) (hdes : design = .dict fs)
    (hempty : lookupD fs "children" (.list []) = .list []) :
    renderDesignToImage env design w h dpi cache = .ok ⟨w, h, []⟩ ∧
    (∀ px py : ℚ, pixelAt ⟨w, h, []⟩ px py = .color canvasBackground) := by
  subst hdes
  have hwh : ¬(w < 0 ∨ h < 0) := by omega
  refine ⟨?_, fun px py => rfl⟩
  simp only [renderDesignToImage, if_neg hwh]
  rw [hempty]
  rfl

/-- Witness for C5's amended statement at the zero-node scene declaring a
red background. -/
theorem claim_C5_witness :
    renderDesignToImage envC designEmptyRedBg 50 40 300 [] = .ok ⟨50, 40, []⟩ ∧
    (∀ px py : ℚ, pixelAt ⟨50, 40, []⟩ px py = .color canvasBackground) :=
  claim_C5_blank_scene_white_canvas envC [] designEmptyRedBg _ 50 40 300
    (by decide) (by decide) rfl rfl

/-- Floor of an integer quotient in `ℚ` is Euclidean integer division. -/
theorem floor_int_div (a b : ℤ) (hb : 0 < b) : ⌊(a : ℚ) / (b : ℚ)⌋ = a / b := by
  have h1 : ((b.toNat : ℕ) : ℚ) = (b : ℚ) := by
    norm_cast
    exact Int.toNat_of_nonneg hb.le
  rw [← h1, Rat.floor_intCast_div_natCast, Int.toNat_of_nonneg hb.le]

/-- C7, counterexample: at `width_mm = 90`, `height_mm = 54`, `dpi = 300`,
`export_to_pdf` produces a 1062×637 raster (`int()` truncation), while the
spec's `mm_to_px` rounding gives 1063×638. -/
theorem claim_C7_counterexample :
    (exportToPdf envC ⟨false, false, false⟩ [] designEmpty ⟨90, 1⟩ ⟨54, 1⟩ 300).result =
      .ok ⟨⟨255118110210, 1000000000⟩, ⟨153070866126, 1000000000⟩, ⟨1062, 637, []⟩⟩ ∧
    specMmToPx (Frac.val ⟨90, 1⟩) 300 = 1063 ∧
    specMmToPx (Frac.val ⟨54, 1⟩) 300 = 638 ∧
    ((1062 : ℤ) ≠ 1063) ∧ ((637 : ℤ) ≠ 638) := by
  refine ⟨by rfl, ?_, ?_, by decide, by decide⟩
  · show round (Frac.val ⟨90, 1⟩ * 300 / (254 / 10)) = 1063
    rw [round_eq]
    rw [show Frac.val ⟨90, 1⟩ * 300 / (254 / 10) + 1 / 2 =
      ((270127 : ℤ) : ℚ) / ((254 : ℕ) : ℚ) by norm_num [Frac.val]]
    rw [Rat.floor_intCast_div_natCast]
    decide
  · show round (Frac.val ⟨54, 1⟩ * 300 / (254 / 10)) = 638
    rw [round_eq]
    rw [show Frac.val ⟨54, 1⟩ * 300 / (254 / 10) + 1 / 2 =
      ((162127 : ℤ) : ℚ) / ((254 : ℕ) : ℚ) by norm_num [Frac.val]]
    rw [Rat.floor_intCast_div_natCast]
    decide

/-- C7 (amended): `export_to_pdf` computes its pixel canvas as
`int(width_mm * dpi / 25.4)` — truncation (for the non-negative physical
inputs, the floor) of the exact value, not its rounding. -/
theorem claim_C7_pixel_canvas_truncates
    (env : Env) (io : PdfIO) (cache : FontCache) (design : PyVal)
    (wmm hmm : Frac) (dpi : ℤ) (page : PdfPage)
    (hwn : 0 ≤ wmm.n) (hwd : 0 < wmm.d) (hhn : 0 ≤ hmm.n) (hhd : 0 < hmm.d)
    (hdpi : 0 ≤ dpi)
    (hok : (exportToPdf env io cache design wmm hmm dpi).result = .ok page) :
    page.raster.width = ⌊wmm.val * dpi / (254 / 10)⌋ ∧
    page.raster.height = ⌊hmm.val * dpi / (254 / 10)⌋ := by
  have harith : ∀ f : Frac, 0 ≤ f.n → 0 < f.d →
      ((f.mul (Frac.ofInt dpi)).div mmPerInch).trunc = ⌊f.val * dpi / (254 / 10)⌋ := by
    intro f hn hd
    have hd0 : ¬ (f.d * 1 * 254 < 0) := by
      push_neg
      positivity
    have hdq : (f.d : ℚ) ≠ 0 := by
      exact_mod_cast hd.ne'
    unfold Frac.mul Frac.div Frac.ofInt mmPerInch Frac.trunc
    dsimp only
    rw [if_neg hd0]
    dsimp only
    rw [Int.tdiv_eq_ediv (by positivity) (by positivity)]
    rw [← floor_int_div (f.n * dpi * 10) (f.d * 1 * 254) (by positivity)]
    congr 1
    unfold Frac.val
    push_cast
    field_simp
  unfold exportToPdf at hok
  dsimp only at hok
  rcases heq : renderDesignToImage env design
      (((wmm.mul (Frac.ofInt dpi)).div mmPerInch).trunc)
      (((hmm.mul (Frac.ofInt dpi)).div mmPerInch).trunc) dpi cache with e | img
  all_goals rw [heq] at hok
  · dsimp only at hok
    cases hok
  · dsimp only at hok
    by_cases he : io.encodeFails = true
    · simp [he] at hok
    · simp only [he, Bool.false_eq_true, if_false] at hok
      by_cases hds : io.drawFails = true ∨ io.pdfSaveFails = true
      · simp [hds] at hok
      · simp only [hds, if_false] at hok
        cases hok
        have hdims := renderDesignToImage_dims env design _ _ dpi cache img heq
        exact ⟨hdims.1.trans (harith wmm hwn hwd),
               hdims.2.trans (harith hmm hhn hhd)⟩

/-- Witness for C7's amended statement at 90×54 mm, 300 DPI. -/
theorem claim_C7_witness :
    (⟨⟨255118110210, 1000000000⟩, ⟨153070866126, 1000000000⟩,
        ⟨1062, 637, []⟩⟩ : PdfPage).raster.width =
      ⌊Frac.val ⟨90, 1⟩ * (300 : ℤ) / (254 / 10)⌋ ∧
    (⟨⟨255118110210, 1000000000⟩, ⟨153070866126, 1000000000⟩,
        ⟨1062, 637, []⟩⟩ : PdfPage).raster.height =
      ⌊Frac.val ⟨54, 1⟩ * (300 : ℤ) / (254 / 10)⌋ :=
  claim_C7_pixel_canvas_truncates envC ⟨false, false, false⟩ [] designEmpty
    ⟨90, 1⟩ ⟨54, 1⟩ 300 _ (by decide) (by decide) (by decide) (by decide)
    (by decide) rfl

/-- C6, counterexample: in a `Group` holding a raising rectangle (its
`strokeWidth` is a string, so `stroke_width > 0` raises `TypeError`)
followed by a green sibling, the green sibling is NOT painted — the
exception aborts the rest of the group — although the group's own top-level
blue sibling still is and the call succeeds. -/
theorem claim_C6_counterexample :
    renderDesignToImage envC designGroupBad 200 200 72 [] =
      .ok ⟨200, 200, [.rectFill 70 70 80 80 (.raw "#0000ff")]⟩ ∧
    DrawOp.rectFill 50 50 60 60 (.raw "#00ff00") ∉
      [DrawOp.rectFill 70 70 80 80 (PColor.raw "#0000ff")] := by
  refine ⟨by rfl, ?_⟩
  intro hmem
  simp [Frac.mk.injEq] at hmem

/-- C6 (amended): for DICT nodes — the only shape the editor emits — an
exception while painting is caught at the TOP-LEVEL (layer-child) boundary:
every top-level sibling's ops appear regardless of failures in the others,
and a layer all of whose children are dicts never escapes an exception, so
the call succeeds.  The boundary is weaker than the claim in two ways:
inside a nested `Group` the children after a failing child are abandoned
(the closed counterexample exhibits this), and for a NON-dict failing child
the handler's own `child.get` re-raises and aborts the layer. -/
theorem claim_C6_top_level_boundary
    (env : Env) (dpi : ℤ) (xs ys : List PyVal) (bad : PyVal) (cache : FontCache)
    (layer : PyVal) (fs : List (String × PyVal)) (cs : List PyVal)
    (hxs : ∀ c ∈ xs, ∃ gs, c = PyVal.dict gs)
    (hbad : ∃ gs, bad = PyVal.dict gs)
    (hl : layer = .dict fs)
    (hc : lookupD fs "children" (.list []) = .list cs)
    (hcs : ∀ c ∈ cs, ∃ gs, c = PyVal.dict gs) :
    (renderLayer env dpi layer cache).err = Option.none ∧
    (layerLoop env dpi (xs ++ bad :: ys) cache).ops =
      (layerLoop env dpi xs cache).ops ++
      (renderObject env dpi bad (layerLoop env dpi xs cache).cache).ops ++
      (layerLoop env dpi ys
        (renderObject env dpi bad (layerLoop env dpi xs cache).cache).cache).ops := by
  constructor
  · subst hl
    simp only [renderLayer]
    rw [hc]
    exact layerLoop_dicts env dpi cs cache hcs
  · rw [layerLoop_append_dicts env dpi xs (bad :: ys) cache hxs]
    obtain ⟨gs, rfl⟩ := hbad
    simp only [layerLoop]
    cases (renderObject env dpi (.dict gs) (layerLoop env dpi xs cache).cache).err with
    | none => simp [List.append_assoc]
    | some e => simp [List.append_assoc]

/-- Witness for C6's amended statement at the concrete group design. -/
theorem claim_C6_witness :
    (renderLayer envC 72
      (.dict [("children", .list [.dict [("className", .str "Group"),
        ("children", .list [rectNodeBad, rectNodeGreen])], rectNodeBlue])])
      []).err = Option.none ∧
    (layerLoop envC 72
      ([] ++ (.dict [("className", .str "Group"),
        ("children", .list [rectNodeBad, rectNodeGreen])]) :: [rectNodeBlue]) []).ops =
      (layerLoop envC 72 [] []).ops ++
      (renderObject envC 72 (.dict [("className", .str "Group"),
        ("children", .list [rectNodeBad, rectNodeGreen])])
        (layerLoop envC 72 [] []).cache).ops ++
      (layerLoop envC 72 [rectNodeBlue]
        (renderObject envC 72 (.dict [("className", .str "Group"),
          ("children", .list [rectNodeBad, rectNodeGreen])])
          (layerLoop envC 72 [] []).cache).cache).ops :=
  claim_C6_top_level_boundary envC 72 [] [rectNodeBlue]
    (.dict [("className", .str "Group"),
      ("children", .list [rectNodeBad, rectNodeGreen])]) []
    (.dict [("children", .list [.dict [("className", .str "Group"),
      ("children", .list [rectNodeBad, rectNodeGreen])], rectNodeBlue])])
    _ _ (fun c hc => absurd hc (List.not_mem_nil c)) ⟨_, rfl⟩ rfl rfl
    (by
      intro c hc
      rcases List.mem_cons.mp hc with rfl | hc
      · exact ⟨_, rfl⟩
      · rcases List.mem_singleton.mp hc with rfl
        exact ⟨_, rfl⟩)

/-- C1, counterexample: the same rectangle scene rendered at DPI 300 and at
DPI 72 produces the IDENTICAL draw call `rectangle(12, 0, 42, 18)` — no
coordinate is multiplied by the scale factor `300/72`, so the rendering at
DPI 300 is not a uniformly scaled copy of the DPI-72 rendering. -/
theorem claim_C1_counterexample :
    renderDesignToImage envC designRect 100 100 300 [] =
      .ok ⟨100, 100, [.rectFill 12 0 42 18 (.raw "#ff0000")]⟩ ∧
    renderDesignToImage envC designRect 100 100 72 [] =
      .ok ⟨100, 100, [.rectFill 12 0 42 18 (.raw "#ff0000")]⟩ ∧
    ¬ opsScaledBy ((300 : ℚ) / 72)
        [.rectFill 12 0 42 18 (.raw "#ff0000")]
        [.rectFill 12 0 42 18 (.raw "#ff0000")] := by
  refine ⟨by rfl, by rfl, ?_⟩
  intro hsc
  cases hsc with
  | cons hop _ =>
    obtain ⟨h1, -⟩ := hop
    norm_num [Frac.val] at h1

/-- C1 (amended): the renderer applies no scale factor to geometry at all —
only text font sizes are scaled (by `dpi / 72`); consequently any scene
without Text nodes renders IDENTICALLY at every DPI. -/
theorem claim_C1_geometry_dpi_independent
    (env : Env) (cache : FontCache) (design : PyVal) (w h dpi₁ dpi₂ : ℤ)
    (hnt : NoTextDoc design) :
    renderDesignToImage env design w h dpi₁ cache =
      renderDesignToImage env design w h dpi₂ cache := by
  rcases hnt with ⟨fs, rfl, hlayers⟩
  unfold renderDesignToImage
  by_cases hwh : w < 0 ∨ h < 0
  · rw [if_pos hwh, if_pos hwh]
  · rw [if_neg hwh, if_neg hwh]
    dsimp only
    cases hck : lookupD fs "children" (.list []) with
    | list ls =>
      dsimp only
      rw [layersLoop_dpi_of_noText env dpi₁ dpi₂ ls cache (hlayers ls hck)]
    | none => rfl
    | bool b => rfl
    | num q => rfl
    | str s => rfl
    | dict gs => rfl

/-- Witness for C1's amended statement: the rectangle scene at DPI 300 and
DPI 72. -/
theorem claim_C1_witness :
    renderDesignToImage envC designRect 100 100 300 [] =
      renderDesignToImage envC designRect 100 100 72 [] := by
  refine claim_C1_geometry_dpi_independent envC [] designRect 100 100 300 72
    ⟨_, rfl, ?_⟩
  intro ls hls l hl gs hgs cs hcs c hc
  have hls' : PyVal.list [(.dict [("children", .list [rectNodeA])] : PyVal)] = .list ls := hls
  cases hls'
  simp only [List.mem_singleton] at hl
  subst hl
  cases hgs
  have hcs' : PyVal.list [rectNodeA] = .list cs := hcs
  cases hcs'
  simp only [List.mem_singleton] at hc
  subst hc
  refine NoText.dict _ (by decide) ?_
  intro xs hxs c' hc'
  have : PyVal.list [] = .list xs := hxs
  cases this
  cases hc'

end Renderer

